import Mathlib

/-!
Shallow embedding of the core of `src/process_v8.py` (the reference-chain
field resolver of the vigcaly repository).

Modelling conventions:
* A CSV row (`fila`) is a `List String`; a cell read `fila[k]` guarded by
  `len(fila) > k` is modelled by `l[k]?` (`Option String`), since the source
  substitutes `""` (for keys) or `"no encontrado"` (for values) when the
  index is out of bounds, and `normalizar_valores` maps an absent cell
  (pandas `NaN`, modelled as `none`) to `""` as well.
* A reference table is a `List Fila`; a table whose backing file is missing
  or unreadable is modelled as the empty list, exactly as the source leaves
  the corresponding DataFrame empty and skips its scan loop.
* The per-row scan loops of `procesar_archivo_principal` (lines 227-275)
  become the structural recursions `buscarEnTabla` and `procesarFilas`; the
  mutation `df_principal.at[i, 3] = nuevo_valor` becomes `List.set 3`.
-/

namespace ProcessV8

/-- A row of a `;`-separated CSV file, as parsed with `dtype=str`. -/
abbrev Fila := List String

/-- Python's `str.strip()` on a character list: drop leading and trailing
whitespace. -/
def listaStrip (l : List Char) : List Char :=
  (((l.dropWhile Char.isWhitespace).reverse).dropWhile Char.isWhitespace).reverse

/-- Python's `str.strip()`. -/
def strip (s : String) : String := ⟨listaStrip s.data⟩

/-- The regex test `re.match(r'^\d+$', s)`: non-empty and all decimal
digits. -/
def esNumerica (s : String) : Bool :=
  !s.data.isEmpty && s.data.all Char.isDigit

/-- Decimal value of a digit string, as Python `int` reads it. -/
def digitsVal (s : String) : Nat :=
  s.data.foldl (fun a c => a * 10 + (c.toNat - 48)) 0

/-- Embedding of `normalizar_valores` (lines 148-167): `pd.isna` input gives
`""`; otherwise the value is stripped, and if the stripped value matches
`^\d+$` it is rendered through `str(int(...))`, else returned stripped. -/
def normalizar_valores : Option String → String
  | none => ""
  | some valor =>
    let s := strip valor
    if esNumerica s then toString (digitsVal s) else s

/-- One reference-table scan loop (lines 237-244 / 248-255 / 259-266):
the first row whose normalized key column equals `key` yields its value
column, with `"no encontrado"` substituted when the value column is out of
bounds; `none` when no row matches (including the empty table). -/
def buscarEnTabla (key : String) (kc vc : Nat) : List Fila → Option String
  | [] => none
  | fila :: rest =>
    if normalizar_valores fila[kc]? = key then
      some ((fila[vc]?).getD "no encontrado")
    else
      buscarEnTabla key kc vc rest

/-- The resolution chain (lines 236-266): fwd_div (key col 43, value col 0),
then fwd_usd (43, 0), then liquidaciones (key col 1, value col 20); first
match wins, paired with the source label the match is logged under. -/
def resolverValor (key : String) (t1 t2 t3 : List Fila) :
    Option (String × String) :=
  match buscarEnTabla key 43 0 t1 with
  | some v => some (v, "fwd_div")
  | none =>
    match buscarEnTabla key 43 0 t2 with
    | some v => some (v, "fwd_usd")
    | none => (buscarEnTabla key 1 20 t3).map (fun v => (v, "liquidaciones"))

/-- The normalized lookup key extracted from a primary row (line 228). -/
def clave (fila : Fila) : String := normalizar_valores fila[4]?

/-- The value written into target column 3 of a primary row (lines 233-275):
the resolved value, or the sentinel when the chain yields no match. -/
def valorNuevo (t1 t2 t3 : List Fila) (fila : Fila) : String :=
  match resolverValor (clave fila) t1 t2 t3 with
  | some (v, _) => v
  | none => "no encontrado"

/-- Outcome of the per-row loop: the updated rows, the two counters
`modificadas` / `no_encontradas`, and the not-found log entries
`(row index, normalized key)` in row order. -/
structure Resultado where
  filas : List Fila
  modificadas : Nat
  noEncontradas : Nat
  noEncontrados : List (Nat × String)
  deriving Repr, DecidableEq

/-- The per-row loop of `procesar_archivo_principal` (lines 227-275),
starting at row index `i`: extract and normalize the key from column 4,
resolve through the chain, write the result (or the sentinel) into
column 3, and accumulate counters and the not-found log. -/
def procesarFilas (t1 t2 t3 : List Fila) : List Fila → Nat → Resultado
  | [], _ => ⟨[], 0, 0, []⟩
  | fila :: rest, i =>
    let valorBuscar := clave fila
    let prev := procesarFilas t1 t2 t3 rest (i + 1)
    match resolverValor valorBuscar t1 t2 t3 with
    | some (v, _) =>
      ⟨fila.set 3 v :: prev.filas, prev.modificadas + 1,
        prev.noEncontradas, prev.noEncontrados⟩
    | none =>
      ⟨fila.set 3 "no encontrado" :: prev.filas, prev.modificadas,
        prev.noEncontradas + 1, (i, valorBuscar) :: prev.noEncontrados⟩

/-- End-of-run summary (lines 221-224, 295-299). -/
structure Informe where
  total : Nat
  modificadas : Nat
  noEncontradas : Nat
  noEncontrados : List (Nat × String)
  deriving Repr, DecidableEq

/-- The data-row processing of `procesar_archivo_principal`: processes the
data rows (header already removed by `leer_archivo_csv`) and produces the
updated rows and the summary report, with `total = len(df_principal)`. -/
def procesarPrincipal (datos : List Fila) (t1 t2 t3 : List Fila) :
    List Fila × Informe :=
  let r := procesarFilas t1 t2 t3 datos 0
  (r.filas, ⟨datos.length, r.modificadas, r.noEncontradas, r.noEncontrados⟩)

/-- The written output file (lines 283-291): the original first row is
re-read and prepended verbatim to the processed data rows. -/
def archivoSalida (original : List Fila) (t1 t2 t3 : List Fila) : List Fila :=
  match original with
  | [] => []
  | encabezado :: datos => encabezado :: (procesarPrincipal datos t1 t2 t3).1

/-- `normalize` as claim C2 words it, the digit test applied to the raw
input: kept for comparison against `normalizar_valores`, which applies the
digit test to the stripped input. -/
def normalizeSpecC2 : Option String → String
  | none => ""
  | some valor =>
    if esNumerica valor then toString (digitsVal valor) else strip valor

/-! ## Helper lemmas about the per-row loop -/

theorem procesarFilas_filas (t1 t2 t3 : List Fila) (rows : List Fila) (i : Nat) :
    (procesarFilas t1 t2 t3 rows i).filas =
      rows.map (fun r => r.set 3 (valorNuevo t1 t2 t3 r)) := by
  induction rows generalizing i with
  | nil => rfl
  | cons r rest ih =>
    simp only [procesarFilas, List.map_cons]
    cases h : resolverValor (clave r) t1 t2 t3 with
    | none => simp [valorNuevo, h, ih]
    | some p => cases p with | mk v e => simp [valorNuevo, h, ih]

theorem procesarFilas_total (t1 t2 t3 : List Fila) (rows : List Fila) (i : Nat) :
    (procesarFilas t1 t2 t3 rows i).modificadas +
      (procesarFilas t1 t2 t3 rows i).noEncontradas = rows.length := by
  induction rows generalizing i with
  | nil => rfl
  | cons r rest ih =>
    simp only [procesarFilas, List.length_cons]
    cases h : resolverValor (clave r) t1 t2 t3 with
    | none => simp only [← ih (i + 1)]; omega
    | some p =>
      cases p with
      | mk v e => simp only [← ih (i + 1)]; omega

theorem procesarFilas_noEncontradas (t1 t2 t3 : List Fila) (rows : List Fila)
    (i : Nat) :
    (procesarFilas t1 t2 t3 rows i).noEncontradas =
      (rows.filter (fun r => (resolverValor (clave r) t1 t2 t3).isNone)).length := by
  induction rows generalizing i with
  | nil => rfl
  | cons r rest ih =>
    simp only [procesarFilas, List.filter_cons]
    cases h : resolverValor (clave r) t1 t2 t3 with
    | none => simp [h, ih]
    | some p => cases p with | mk v e => simp [h, ih]

theorem procesarFilas_modificadas (t1 t2 t3 : List Fila) (rows : List Fila)
    (i : Nat) :
    (procesarFilas t1 t2 t3 rows i).modificadas =
      (rows.filter (fun r => (resolverValor (clave r) t1 t2 t3).isSome)).length := by
  induction rows generalizing i with
  | nil => rfl
  | cons r rest ih =>
    simp only [procesarFilas, List.filter_cons]
    cases h : resolverValor (clave r) t1 t2 t3 with
    | none => simp [h, ih]
    | some p => cases p with | mk v e => simp [h, ih]

theorem procesarFilas_noEncontrados (t1 t2 t3 : List Fila) (rows : List Fila)
    (i : Nat) :
    (procesarFilas t1 t2 t3 rows i).noEncontrados =
      ((rows.enumFrom i).filter
          (fun p => (resolverValor (clave p.2) t1 t2 t3).isNone)).map
        (fun p => (p.1, clave p.2)) := by
  induction rows generalizing i with
  | nil => rfl
  | cons r rest ih =>
    simp only [procesarFilas, List.enumFrom_cons, List.filter_cons]
    cases h : resolverValor (clave r) t1 t2 t3 with
    | none => simp [h, ih]
    | some p => cases p with | mk v e => simp [h, ih]

theorem resolverValor_eq_none (key : String) (t1 t2 t3 : List Fila)
    (h1 : buscarEnTabla key 43 0 t1 = none)
    (h2 : buscarEnTabla key 43 0 t2 = none)
    (h3 : buscarEnTabla key 1 20 t3 = none) :
    resolverValor key t1 t2 t3 = none := by
  simp [resolverValor, h1, h2, h3]

/-! ## The claims -/

/-- Claim C1: the resolution chain tries fwd_div, then fwd_usd, then
liquidaciones; a key found in an earlier table returns that table's value
and source label, and the later tables are never consulted (the result does
not depend on them). -/
theorem chain_first_match_wins (key : String) (t1 t2 t3 t2' t3' : List Fila) :
    (∀ v, buscarEnTabla key 43 0 t1 = some v →
      resolverValor key t1 t2 t3 = some (v, "fwd_div") ∧
      resolverValor key t1 t2 t3 = resolverValor key t1 t2' t3') ∧
    (buscarEnTabla key 43 0 t1 = none →
      ∀ v, buscarEnTabla key 43 0 t2 = some v →
        resolverValor key t1 t2 t3 = some (v, "fwd_usd") ∧
        resolverValor key t1 t2 t3 = resolverValor key t1 t2 t3') ∧
    (buscarEnTabla key 43 0 t1 = none → buscarEnTabla key 43 0 t2 = none →
      ∀ v, buscarEnTabla key 1 20 t3 = some v →
        resolverValor key t1 t2 t3 = some (v, "liquidaciones")) := by
  refine ⟨fun v h1 => ⟨?_, ?_⟩, fun h1 v h2 => ⟨?_, ?_⟩, fun h1 h2 v h3 => ?_⟩ <;>
    simp [resolverValor, h1]
  · simp [h2]
  · simp [h2]
  · simp [h2, h3]

/-- Witness for C1: the key `""` is present in all three tables (each has a
row whose key column is out of bounds, hence normalizes to `""`); the chain
returns fwd_div's value and label, independently of the later tables. -/
theorem chain_first_match_wins_witness :
    resolverValor "" [["A"]] [["B"]] [["C"]] = some ("A", "fwd_div") ∧
    resolverValor "" [["A"]] [["B"]] [["C"]] = resolverValor "" [["A"]] [] [] :=
  (chain_first_match_wins "" [["A"]] [["B"]] [["C"]] [] []).1 "A" (by decide)

/-- Claim C2 as stated is false: the normalizer applies the all-digits test
to the STRIPPED input, not to the raw input. `" 007 "` does not consist
entirely of decimal digits, so by the claim it should be returned trimmed
(`"007"`), but `normalizar_valores` returns `"7"`. -/
theorem normalizar_counterexample :
    (" 007 ").data.all Char.isDigit = false ∧
    strip " 007 " = "007" ∧
    normalizar_valores (some " 007 ") = "7" ∧
    normalizeSpecC2 (some " 007 ") = "007" := by decide

/-- Claim C2 amended: the normalizer returns `""` on absent input; when the
STRIPPED input is non-empty and all decimal digits it returns the decimal
integer value rendered without leading zeros; otherwise it returns the
stripped input unchanged. The spec's concrete examples all hold. -/
theorem normalizar_amended :
    normalizar_valores none = "" ∧
    normalizar_valores (some "007") = "7" ∧
    normalizar_valores (some "0") = "0" ∧
    normalizar_valores (some "") = "" ∧
    normalizar_valores (some "ABC123") = "ABC123" ∧
    (∀ s : String, esNumerica (strip s) = true →
      normalizar_valores (some s) = Nat.repr (digitsVal (strip s))) ∧
    (∀ s : String, esNumerica (strip s) = false →
      normalizar_valores (some s) = strip s) := by
  refine ⟨by decide, by decide, by decide, by decide, by decide, ?_, ?_⟩
  · intro s h
    simp only [normalizar_valores, h, if_true]
    rfl
  · intro s h
    simp [normalizar_valores, h]

/-- Witness for amended C2 at the concrete inputs `" 007 "` (stripped value
all digits) and `" ABC "` (stripped value not all digits). -/
theorem normalizar_amended_witness :
    normalizar_valores (some " 007 ") = Nat.repr (digitsVal (strip " 007 ")) ∧
    normalizar_valores (some " ABC ") = strip " ABC " :=
  ⟨normalizar_amended.2.2.2.2.2.1 " 007 " (by decide),
    normalizar_amended.2.2.2.2.2.2 " ABC " (by decide)⟩

/-- Claim C3: a primary record whose normalized key is absent from all
three tables gets the sentinel `"no encontrado"` written into column 3;
the unmatched counter equals the number of such records (each contributes
exactly 1), and the unmatched list holds exactly the `(row index,
normalized key)` descriptors of the unresolved records, in row order. -/
theorem unmatched_records (t1 t2 t3 : List Fila) (datos : List Fila) :
    (procesarPrincipal datos t1 t2 t3).2.noEncontradas =
      (datos.filter (fun r => (resolverValor (clave r) t1 t2 t3).isNone)).length ∧
    (procesarPrincipal datos t1 t2 t3).2.noEncontrados =
      ((datos.enum).filter
          (fun p => (resolverValor (clave p.2) t1 t2 t3).isNone)).map
        (fun p => (p.1, clave p.2)) ∧
    (∀ (i : Nat) (r : Fila), datos[i]? = some r →
      buscarEnTabla (clave r) 43 0 t1 = none →
      buscarEnTabla (clave r) 43 0 t2 = none →
      buscarEnTabla (clave r) 1 20 t3 = none →
      (procesarPrincipal datos t1 t2 t3).1[i]? =
        some (r.set 3 "no encontrado")) := by
  refine ⟨procesarFilas_noEncontradas t1 t2 t3 datos 0, ?_, ?_⟩
  · have h := procesarFilas_noEncontrados t1 t2 t3 datos 0
    simpa [List.enum] using h
  · intro i r hr h1 h2 h3
    have hn := resolverValor_eq_none (clave r) t1 t2 t3 h1 h2 h3
    have hm := procesarFilas_filas t1 t2 t3 datos 0
    simp only [procesarPrincipal, hm, List.getElem?_map, hr, Option.map_some]
    simp [valorNuevo, hn]

/-- Witness for C3: key `"99"` is absent from all (empty) tables, so row 0
gets the sentinel; the counter is 1 and the descriptor `(0, "99")` is
recorded. -/
theorem unmatched_records_witness :
    (procesarPrincipal [["a", "b", "c", "d", "99"]] [] [] []).2.noEncontradas = 1 ∧
    (procesarPrincipal [["a", "b", "c", "d", "99"]] [] [] []).2.noEncontrados =
      [(0, "99")] ∧
    (procesarPrincipal [["a", "b", "c", "d", "99"]] [] [] []).1[0]? =
      some ((["a", "b", "c", "d", "99"] : Fila).set 3 "no encontrado") := by
  have h := unmatched_records [] [] [] [["a", "b", "c", "d", "99"]]
  exact ⟨by rw [h.1]; decide, by rw [h.2.1]; decide,
    h.2.2 0 ["a", "b", "c", "d", "99"] (by decide) (by decide) (by decide)
      (by decide)⟩

/-- Claim C4 as stated is false: a reference record whose key column is out
of bounds is NOT skipped. The record `["X"]` has its key column 43 out of
bounds (length 1), yet it IS the match for the normalized key `""`, and its
value column 0 is returned. -/
theorem out_of_bounds_counterexample :
    (43 < (["X"] : Fila).length) = False ∧
    buscarEnTabla "" 43 0 [["X"]] = some "X" := by
  constructor
  · decide
  · decide

/-- Claim C4 amended: a reference record whose key column is out of bounds
is treated as having the empty normalized key: it is never the match for a
primary key whose normalized form is non-empty (for those the scan behaves
as if the record were skipped), but it IS the match for the empty
normalized key, yielding its value column (with the sentinel substituted
when that too is out of bounds); none of this is an error. -/
theorem out_of_bounds_amended (key : String) (kc vc : Nat) (r : Fila)
    (rest : List Fila) (h : r.length ≤ kc) :
    (key ≠ "" → buscarEnTabla key kc vc (r :: rest) = buscarEnTabla key kc vc rest) ∧
    buscarEnTabla "" kc vc (r :: rest) = some ((r[vc]?).getD "no encontrado") := by
  have hk : r[kc]? = none := List.getElem?_eq_none h
  constructor
  · intro hne
    simp [buscarEnTabla, hk, normalizar_valores, hne, Ne.symm hne]
  · simp [buscarEnTabla, hk, normalizar_valores]

/-- Witness for amended C4: the record `["a"]` has key column 2 out of
bounds; the non-empty key `"Z"` skips it, while the empty key matches it
and returns its value column 0. -/
theorem out_of_bounds_amended_witness :
    buscarEnTabla "Z" 2 0 [["a"]] = buscarEnTabla "Z" 2 0 [] ∧
    buscarEnTabla "" 2 0 [["a"]] = some "a" :=
  ⟨(out_of_bounds_amended "Z" 2 0 ["a"] [] (by decide)).1 (by decide),
    (out_of_bounds_amended "Z" 2 0 ["a"] [] (by decide)).2⟩

/-- Claim C5: the report's total equals the number of data rows and equals
matched plus unmatched exactly; every record's target column 3 is written —
the output row at every index is the input row with column 3 set to the
resolution result, and whenever the row has more than 3 columns the written
cell actually holds that result. -/
theorem completeness (t1 t2 t3 : List Fila) (datos : List Fila) :
    (procesarPrincipal datos t1 t2 t3).2.total = datos.length ∧
    (procesarPrincipal datos t1 t2 t3).2.total =
      (procesarPrincipal datos t1 t2 t3).2.modificadas +
        (procesarPrincipal datos t1 t2 t3).2.noEncontradas ∧
    (∀ (i : Nat) (r : Fila), datos[i]? = some r →
      (procesarPrincipal datos t1 t2 t3).1[i]? =
        some (r.set 3 (valorNuevo t1 t2 t3 r)) ∧
      (3 < r.length →
        (r.set 3 (valorNuevo t1 t2 t3 r))[3]? =
          some (valorNuevo t1 t2 t3 r))) := by
  refine ⟨rfl, (procesarFilas_total t1 t2 t3 datos 0).symm, ?_⟩
  intro i r hr
  constructor
  · simp only [procesarPrincipal, procesarFilas_filas, List.getElem?_map, hr,
      Option.map_some']
  · intro h3
    exact List.getElem?_set_self (by simpa using h3)

/-- Witness for C5: one data row, key `"7"` found in liquidaciones; the
counts add up and the target column 3 of the row is written. -/
theorem completeness_witness :
    (procesarPrincipal [["a", "b", "c", "d", "7"]] [] [] [["x", "7"]]).2.total =
      (procesarPrincipal [["a", "b", "c", "d", "7"]] [] [] [["x", "7"]]).2.modificadas +
        (procesarPrincipal [["a", "b", "c", "d", "7"]] [] [] [["x", "7"]]).2.noEncontradas ∧
    ((["a", "b", "c", "d", "7"] : Fila).set 3
        (valorNuevo [] [] [["x", "7"]] ["a", "b", "c", "d", "7"]))[3]? =
      some (valorNuevo [] [] [["x", "7"]] ["a", "b", "c", "d", "7"]) :=
  ⟨(completeness [] [] [["x", "7"]] [["a", "b", "c", "d", "7"]]).2.1,
    ((completeness [] [] [["x", "7"]] [["a", "b", "c", "d", "7"]]).2.2 0
        ["a", "b", "c", "d", "7"] (by decide)).2 (by decide)⟩

/-- Claim C6: a reference table whose backing file is missing or unreadable
is an empty table; searching it yields no match, and with the middle table
of the chain missing the chain still resolves against the first and third
tables in order. Resolution is a total function: no exception can
propagate. -/
theorem missing_table (key : String) (t1 t3 : List Fila) :
    buscarEnTabla key 43 0 ([] : List Fila) = none ∧
    buscarEnTabla key 1 20 ([] : List Fila) = none ∧
    resolverValor key t1 [] t3 =
      (match buscarEnTabla key 43 0 t1 with
       | some v => some (v, "fwd_div")
       | none =>
         (buscarEnTabla key 1 20 t3).map (fun v => (v, "liquidaciones"))) := by
  refine ⟨rfl, rfl, ?_⟩
  cases h : buscarEnTabla key 43 0 t1 <;> simp [resolverValor, buscarEnTabla, h]

/-- Claim C7: when the head record's key column normalizes to the key, the
table scan returns that record's value, whatever follows — duplicates later
in the table are ignored (first-occurrence wins, stable file order). -/
theorem first_occurrence_wins (key : String) (kc vc : Nat) (r : Fila)
    (rest : List Fila) (h : normalizar_valores r[kc]? = key) :
    buscarEnTabla key kc vc (r :: rest) = some ((r[vc]?).getD "no encontrado") := by
  simp [buscarEnTabla, h]

/-- Witness for C7: the table `[["7","A"],["7","B"]]` with key column 0 and
value column 1 has duplicate keys; looking up `"7"` yields `"A"`. -/
theorem first_occurrence_wins_witness :
    buscarEnTabla "7" 0 1 [["7", "A"], ["7", "B"]] = some "A" :=
  first_occurrence_wins "7" 0 1 ["7", "A"] [["7", "B"]] (by decide)

/-- Claim C8: the output file keeps the input's row count, starts with the
original header row unchanged, and every data row keeps its column count
with every column other than target column 3 unchanged. -/
theorem output_frame (t1 t2 t3 : List Fila) (encabezado : Fila)
    (datos : List Fila) :
    (archivoSalida (encabezado :: datos) t1 t2 t3).length =
      (encabezado :: datos).length ∧
    (archivoSalida (encabezado :: datos) t1 t2 t3).head? = some encabezado ∧
    (∀ (i : Nat) (r : Fila), datos[i]? = some r →
      (archivoSalida (encabezado :: datos) t1 t2 t3)[i + 1]? =
        some (r.set 3 (valorNuevo t1 t2 t3 r)) ∧
      (r.set 3 (valorNuevo t1 t2 t3 r)).length = r.length ∧
      (∀ j : Nat, j ≠ 3 → (r.set 3 (valorNuevo t1 t2 t3 r))[j]? = r[j]?)) := by
  refine ⟨?_, rfl, ?_⟩
  · simp [archivoSalida, procesarPrincipal, procesarFilas_filas]
  · intro i r hr
    refine ⟨?_, List.length_set .., fun j hj => List.getElem?_set_ne (by omega)⟩
    simp only [archivoSalida, procesarPrincipal, procesarFilas_filas,
      List.getElem?_cons_succ, List.getElem?_map, hr, Option.map_some']

/-- Witness for C8 on a two-row file (header plus one data row). -/
theorem output_frame_witness :
    (archivoSalida [["H"], ["a", "b", "c", "d", "7"]] [] [] [["x", "7"]])[1]? =
      some ((["a", "b", "c", "d", "7"] : Fila).set 3
        (valorNuevo [] [] [["x", "7"]] ["a", "b", "c", "d", "7"])) ∧
    ((["a", "b", "c", "d", "7"] : Fila).set 3
        (valorNuevo [] [] [["x", "7"]] ["a", "b", "c", "d", "7"])).length =
      (["a", "b", "c", "d", "7"] : Fila).length :=
  ⟨((output_frame [] [] [["x", "7"]] ["H"] [["a", "b", "c", "d", "7"]]).2.2 0
      ["a", "b", "c", "d", "7"] (by decide)).1,
    ((output_frame [] [] [["x", "7"]] ["H"] [["a", "b", "c", "d", "7"]]).2.2 0
      ["a", "b", "c", "d", "7"] (by decide)).2.1⟩

/-- Claim C9: processing is a pure function of the primary data rows and
the three reference tables — two runs on equal inputs produce equal output
rows and equal reports (total, matched, unmatched, and the unmatched
list). -/
theorem deterministic (datos datos' t1 t1' t2 t2' t3 t3' : List Fila)
    (h0 : datos = datos') (h1 : t1 = t1') (h2 : t2 = t2') (h3 : t3 = t3') :
    procesarPrincipal datos t1 t2 t3 = procesarPrincipal datos' t1' t2' t3' := by
  rw [h0, h1, h2, h3]

/-- Witness for C9 at a concrete dataset and chain. -/
theorem deterministic_witness :
    procesarPrincipal [["a", "b", "c", "d", "7"]] [] [] [["x", "7"]] =
      procesarPrincipal [["a", "b", "c", "d", "7"]] [] [] [["x", "7"]] :=
  deterministic [["a", "b", "c", "d", "7"]] [["a", "b", "c", "d", "7"]]
    [] [] [] [] [["x", "7"]] [["x", "7"]] rfl rfl rfl rfl

/-- Claim C10: a record can be counted as matched yet receive the sentinel.
The liquidaciones row `["x","7"]` matches the primary key `"7"` on its key
column 1, but its value column 20 is out of bounds, so `"no encontrado"` is
written into the target column while the matched counter becomes 1, the
unmatched counter stays 0 and no unmatched descriptor is recorded. -/
theorem matched_with_sentinel :
    ¬ 20 < (["x", "7"] : Fila).length ∧
    normalizar_valores (["x", "7"] : Fila)[1]? = "7" ∧
    procesarPrincipal [["a", "b", "c", "d", "7"]] [] [] [["x", "7"]] =
      ([["a", "b", "c", "no encontrado", "7"]],
        ⟨1, 1, 0, []⟩) := by
  refine ⟨by decide, by decide, by decide⟩

end ProcessV8
